import Mathlib

/-!
Verification development for the SanctusVidere login-gate scripts.

The browser localStorage is modelled as an association list of string
keys and string values, in insertion order.  The JavaScript functions of
the repository (part_000, part_001, part_002, part_003 and web/js/main.js)
are embedded as executable Lean functions over this model.
-/

/-- Browser localStorage: key-value pairs in insertion order. -/
abbrev Storage := List (String × String)

/-- localStorage.getItem: the value stored under a key, if any. -/
def getItem (k : String) : Storage → Option String
  | [] => none
  | p :: rest => if p.1 == k then some p.2 else getItem k rest

/-- localStorage.removeItem: drop every entry stored under the key. -/
def removeItem (k : String) : Storage → Storage
  | [] => []
  | p :: rest => if p.1 == k then removeItem k rest else p :: removeItem k rest

/-- localStorage.setItem: replace the entry under the key, or append a new one. -/
def setItem (k v : String) : Storage → Storage
  | [] => [(k, v)]
  | p :: rest => if p.1 == k then (k, v) :: rest else p :: setItem k v rest

/-- localStorage.key(i): the key of the i-th entry, if in range. -/
def keyAt (i : Nat) (s : Storage) : Option String := (s.get? i).map (fun p => p.1)

/-- JavaScript String.prototype.includes, on the character lists: true when
the needle occurs contiguously inside the haystack. -/
def containsList (needle : List Char) : List Char → Bool
  | [] => List.isPrefixOf needle []
  | c :: rest => List.isPrefixOf needle (c :: rest) || containsList needle rest

/-- JavaScript hay.includes(needle) on strings. -/
def strContains (hay needle : String) : Bool := containsList needle.data hay.data

/-- Case-insensitive substring test, used only to state the case-insensitive
matching the specification asks of the provider-cache purge. -/
def containsCaseInsensitive (hay needle : String) : Bool :=
  containsList (needle.data.map Char.toLower) (hay.data.map Char.toLower)

/-- Hexadecimal digit characters 0-9, A-F, as emitted by encodeURIComponent. -/
def hexDigitChar (n : Nat) : Char :=
  if n < 10 then Char.ofNat (48 + n) else Char.ofNat (55 + n)

/-- Percent-encoding of one byte value. -/
def byteToPercent (b : Nat) : String :=
  String.mk ['%', hexDigitChar (b / 16), hexDigitChar (b % 16)]

/-- UTF-8 byte values of a character, as used by encodeURIComponent. -/
def utf8BytesOfChar (c : Char) : List Nat :=
  let n := c.toNat
  if n < 128 then [n]
  else if n < 2048 then [192 + n / 64, 128 + n % 64]
  else if n < 65536 then [224 + n / 4096, 128 + (n / 64) % 64, 128 + n % 64]
  else [240 + n / 262144, 128 + (n / 4096) % 64, 128 + (n / 64) % 64, 128 + n % 64]

/-- The characters encodeURIComponent leaves unescaped. -/
def isUriUnreserved (c : Char) : Bool :=
  c.isAlphanum || c == '-' || c == '_' || c == '.' || c == '!' || c == '~' ||
    c == '*' || c == Char.ofNat 39 || c == '(' || c == ')'

/-- JavaScript encodeURIComponent. -/
def encodeURIComponent (s : String) : String :=
  String.join (s.data.map (fun c =>
    if isUriUnreserved c then String.singleton c
    else String.join ((utf8BytesOfChar c).map byteToPercent)))

-- Basic lemmas about the string and storage model.

theorem data_append (a b : String) : (a ++ b).data = a.data ++ b.data := by
  cases a; cases b; rfl

theorem isPrefixOf_self (l : List Char) : List.isPrefixOf l l = true := by
  rw [List.isPrefixOf_iff_prefix]

theorem isPrefixOf_extend (a b t : List Char) (h : List.isPrefixOf a b = true) :
    List.isPrefixOf a (b ++ t) = true := by
  rw [List.isPrefixOf_iff_prefix] at h ⊢
  exact h.trans (List.prefix_append b t)

theorem isPrefixOf_append_self (l t : List Char) : List.isPrefixOf l (l ++ t) = true :=
  isPrefixOf_extend l l t (isPrefixOf_self l)

theorem isPrefixOf_trans (a b c : List Char) (h1 : List.isPrefixOf a b = true)
    (h2 : List.isPrefixOf b c = true) : List.isPrefixOf a c = true := by
  rw [List.isPrefixOf_iff_prefix] at h1 h2 ⊢
  exact h1.trans h2

theorem containsList_of_isPrefixOf (n h : List Char) (hp : List.isPrefixOf n h = true) :
    containsList n h = true := by
  cases h with
  | nil => exact hp
  | cons c rest => simp [containsList, hp]

theorem containsList_append_right (n pre post : List Char)
    (h : containsList n post = true) : containsList n (pre ++ post) = true := by
  induction pre with
  | nil => exact h
  | cons c rest ih =>
    show (List.isPrefixOf n (c :: (rest ++ post)) || containsList n (rest ++ post)) = true
    rw [ih, Bool.or_true]

theorem containsList_self (n : List Char) : containsList n n = true :=
  containsList_of_isPrefixOf n n (isPrefixOf_self n)

theorem containsList_mid (pre n post hay : List Char) (h : hay = pre ++ (n ++ post)) :
    containsList n hay = true := by
  subst h
  exact containsList_append_right n pre (n ++ post)
    (containsList_of_isPrefixOf n (n ++ post) (isPrefixOf_append_self n post))

theorem strContains_mid (pre n post hay : String) (h : hay = pre ++ (n ++ post)) :
    strContains hay n = true := by
  subst h
  unfold strContains
  rw [data_append, data_append]
  exact containsList_mid pre.data n.data post.data _ rfl

theorem strContains_suffix (pre n hay : String) (h : hay = pre ++ n) :
    strContains hay n = true := by
  subst h
  unfold strContains
  rw [data_append]
  exact containsList_append_right n.data pre.data n.data (containsList_self n.data)

theorem containsList_mono (n1 n2 h : List Char) (hp : List.isPrefixOf n1 n2 = true)
    (hc : containsList n2 h = true) : containsList n1 h = true := by
  induction h with
  | nil => exact isPrefixOf_trans n1 n2 [] hp hc
  | cons c rest ih =>
    simp only [containsList, Bool.or_eq_true] at hc ⊢
    cases hc with
    | inl h1 => exact Or.inl (isPrefixOf_trans n1 n2 (c :: rest) hp h1)
    | inr h2 => exact Or.inr (ih h2)

theorem strContains_mono (hay n1 n2 : String) (hp : List.isPrefixOf n1.data n2.data = true)
    (hc : strContains hay n2 = true) : strContains hay n1 = true :=
  containsList_mono n1.data n2.data hay.data hp hc

/-!
Configuration constants of the repository (part_000 AUTH0_CONFIG and
STRIPE_CONFIG, and the Auth0 config objects of main.js and part_002).
-/

/-- AUTH0_CONFIG.appUrl: origin of the downstream application. -/
def APP_URL : String := "https://app.sanctusvidere.com"

/-- AUTH0_CONFIG.mainUrl: origin of this login gate. -/
def MAIN_URL : String := "https://sanctusvidere.com"

/-- AUTH0_CONFIG.domain, identical in every file. -/
def AUTH0_DOMAIN : String := "dev-wl2dxopsswbbvkcb.us.auth0.com"

/-- AUTH0_CONFIG.clientId in part_000 and in main.js initializeAuth0. -/
def PART000_CLIENT_ID : String := "BAXPcs4GZAZodDtErS0UxTmugyxbEcZU"

/-- AUTH0_CONFIG.client_id in the first main.js variant. -/
def MAINJS_CLIENT_ID : String := "BAXPcs4GZAZodDtErS8UxTmugyxbEcZU"

/-- STRIPE_CONFIG.testAccounts (part_000): emails that bypass payment. -/
def testAccounts : List String := ["test2@example.com"]

/-- STRIPE_CONFIG.paymentLinks (part_000), keyed by plan name. -/
def paymentLinks (plan : String) : Option String :=
  if plan == "daily" then some "https://buy.stripe.com/7sY8wQ8QK8OFfi7cUP3gk01"
  else if plan == "weekly" then some "https://buy.stripe.com/6oU9AUd702qh0nddYT3gk02"
  else if plan == "monthly" then some "https://buy.stripe.com/cN2aFI9XK2r2gAofYY"
  else none

/-!
part_000: waitForAuth0SDK, isSubscribed, redirectToPayment, the Lock
authenticated handler redirect choice, clearAuthData and logout.
-/

/-- Loop of part_000 waitForAuth0SDK: while the SDK is unavailable and fewer
than the capped number of attempts have been made, sleep and re-check.
avail t gives the SDK availability observed at the t-th check; the returned
value is the final attempts counter.  The fuel argument carries the remaining
allowed attempts (maxAttempts minus attempts made), so the recursion mirrors
the source bound of attempts strictly below maxAttempts exactly. -/
def waitGo (avail : Nat → Bool) : Nat → Nat → Nat
  | a, 0 => a
  | a, fuel + 1 => if avail a then a else waitGo avail (a + 1) fuel

/-- Error message thrown by part_000 waitForAuth0SDK at the attempt cap. -/
def sdkTimeoutMsg : String := "Auth0 Lock SDK failed to load within 5 seconds"

/-- part_000 waitForAuth0SDK: poll at 100 ms up to maxAttempts = 50, then
re-check availability once more and throw if the SDK is still missing. -/
def waitForAuth0SDK (avail : Nat → Bool) : Except String Unit :=
  let final := waitGo avail 0 50
  if avail final then Except.ok () else Except.error sdkTimeoutMsg

/-- part_002 initAuth0 SDK-availability retry: when the SDK global is absent
the function reschedules itself after one second, with no attempt cap.  The
fuel argument counts how many scheduled invocations we observe; stillRetrying
means the flow has neither proceeded nor raised any error within that window. -/
inductive RetryOutcome where
  | proceeded (attempt : Nat)
  | stillRetrying
deriving DecidableEq

/-- part_002 initAuth0 retry loop, observed for fuel scheduled invocations. -/
def initAuth0Retry (avail : Nat → Bool) : Nat → Nat → RetryOutcome
  | _, 0 => RetryOutcome.stillRetrying
  | a, fuel + 1 => if avail a then RetryOutcome.proceeded a else initAuth0Retry avail (a + 1) fuel

/-- part_000 isSubscribed: test accounts bypass payment, otherwise the
subscription_active flag in localStorage decides. -/
def isSubscribed (email : String) (s : Storage) : Bool :=
  testAccounts.contains email || (getItem "subscription_active" s == some "true")

/-- part_000 redirectToPayment: the payment URL built for a plan.  The email
argument is accepted by the source but unused in the URL.  An unknown plan
key yields the undefined marker, as the template literal of the source would. -/
def redirectToPaymentUrl (_email userId plan : String) : String :=
  let paymentLink := (paymentLinks plan).getD "undefined"
  let successUrl := encodeURIComponent
    (APP_URL ++ "?payment_status=success&user_id=" ++ userId ++ "&plan=" ++ plan)
  let cancelUrl := encodeURIComponent MAIN_URL
  let paymentUrl :=
    if strContains paymentLink "?" then paymentLink ++ "&client_reference_id=" ++ userId
    else paymentLink ++ "?client_reference_id=" ++ userId
  paymentUrl ++ "&success_url=" ++ successUrl ++ "&cancel_url=" ++ cancelUrl

/-- part_000 initializeLock authenticated handler, profile branch: with the
subscription check passing the user is sent to the app with user_id and the
id token, otherwise to the plans page with user_id only. -/
def lockAuthenticatedRedirect (userId email idToken : String) (s : Storage) : String :=
  if isSubscribed email s then
    APP_URL ++ "?user_id=" ++ encodeURIComponent userId ++ "&token=" ++ encodeURIComponent idToken
  else
    MAIN_URL ++ "/plans.html?user_id=" ++ encodeURIComponent userId

/-- Key predicate of the part_000 clearAuthData sweep loop: the source checks
key.includes of the two spellings auth0 and Auth0 only. -/
def auth0KeyMatch (k : String) : Bool := strContains k "auth0" || strContains k "Auth0"

/-- The for-loop of part_000 clearAuthData over localStorage: index i advances
by one each iteration whether or not the entry at i was removed, and the
length is re-read each iteration.  Fuel bounds the iterations; since i grows
every step and the store never grows, the initial length is enough fuel. -/
def clearLoop : Nat → Nat → Storage → Storage
  | 0, _, s => s
  | fuel + 1, i, s =>
    match keyAt i s with
    | none => s
    | some k =>
      if auth0KeyMatch k then clearLoop fuel (i + 1) (removeItem k s)
      else clearLoop fuel (i + 1) s

/-- part_000 clearAuthData, restricted to its localStorage effects (the
sessionStorage sweep and cookie clearing act on other stores). -/
def clearAuthData (clearUserID : Bool) (s : Storage) : Storage :=
  let s1 := removeItem "auth_access_token" (removeItem "auth_id_token" s)
  let s2 := if clearUserID then
      removeItem "auth_user_email" (removeItem "auth_user_name" (removeItem "auth_user_id" s1))
    else s1
  let s3 := removeItem "auth0.is.authenticated" (removeItem "auth_login_time" s2)
  let s4 := clearLoop s3.length 0 s3
  if clearUserID then
    removeItem "subscription_plan" (removeItem "subscription_date" (removeItem "subscription_active" s4))
  else s4

/-- part_000 logout: clearAuthData(false) first, then navigation to the
provider logout endpoint; the pair holds the store as it stands when the
navigation is initiated, together with the navigation URL. -/
def part000Logout (origin : String) (s : Storage) : Storage × String :=
  (clearAuthData false s,
   "https://" ++ AUTH0_DOMAIN ++ "/v2/logout?client_id=" ++ PART000_CLIENT_ID ++
     "&returnTo=" ++ encodeURIComponent (origin ++ "/logged-out.html"))

/-!
main.js (web/js/main.js): callback detection, the authenticated-branch
display name, the dashboard hand-off URL and the Auth0 logout handler.
-/

/-- An Auth0 profile as read by the scripts: an optional name and an email. -/
structure Profile where
  name : Option String
  email : String
deriving DecidableEq

/-- JavaScript a-or-b on a possibly absent string: undefined, null and the
empty string are falsy, anything else is returned as is. -/
def jsOr (a : Option String) (b : String) : String :=
  match a with
  | some s => if s == "" then b else s
  | none => b

/-- JavaScript email.split at the at-sign, first component: the prefix of
the email before the first at-sign (the whole string when none occurs). -/
def emailLocalPart (email : String) : String :=
  String.mk (email.data.takeWhile (fun c => c != '@'))

/-- main.js initAuth0 callback detection (first variant): the query carries
a code or an error marker, or the fragment carries an implicit token. -/
def initAuth0IsCallback (search hash : String) : Bool :=
  strContains search "code=" || strContains search "error=" || strContains hash "access_token="

/-- main.js initializeAuth0 callback detection (second variant): the query
carries both the code and the state marker. -/
def initializeAuth0IsCallback (search : String) : Bool :=
  strContains search "code=" && strContains search "state="

/-- part_002 parseHash detection: a nonempty fragment containing the
access_token marker. -/
def parseHashIsCallback (hash : String) : Bool :=
  !(hash == "") && strContains hash "access_token"

/-- Display name persisted by main.js initAuth0 and updateUI (userName key),
also shown by the initAuth0 branch and by part_002 showDashboard: the
profile name, or the local part of the email when the name is falsy. -/
def storedUserName (u : Profile) : String := jsOr u.name (emailLocalPart u.email)

/-- Name written into the user-name element by main.js updateUI: the profile
name, or the whole email when the name is falsy. -/
def updateUIDisplayedName (u : Profile) : String := jsOr u.name u.email

/-- Name written into the user-name element by part_002 showDashboard. -/
def showDashboardDisplayedName (u : Profile) : String :=
  jsOr u.name (emailLocalPart u.email)

/-- User id chosen by the main.js dashboard-button handler: the subject id,
or the email local part when the subject id is falsy. -/
def mainJsDashboardUserId (sub : Option String) (email : String) : String :=
  jsOr sub (emailLocalPart email)

/-- main.js dashboard-button hand-off URL (Auth0 branch). -/
def dashboardHandoffUrl (userId token : String) (now : Nat) : String :=
  APP_URL ++ "?user=new&userid=" ++ userId ++ "&token=" ++ token ++
    "&auth0=true&t=" ++ toString now

/-- part_002 initAuth0 post-callback hand-off URL to the downstream app. -/
def postCallbackHandoffUrl (userId token : String) (now : Nat) : String :=
  APP_URL ++ "?user=new&userid=" ++ userId ++ "&token=" ++ token ++ "&t=" ++ toString now

/-- One observable effect of an event handler: a localStorage removal or a
page navigation. -/
inductive Effect where
  | remove (key : String)
  | navigate (url : String)
deriving DecidableEq

/-- Provider logout navigation performed inside the Auth0 SDK logout call of
main.js.  The SDK is an external collaborator; its navigation to the
provider logout endpoint with the given return address is the documented
behaviour the code comment relies on when it notes the page will redirect. -/
def mainJsAuth0LogoutNavUrl (returnTo : String) : String :=
  "https://" ++ AUTH0_DOMAIN ++ "/v2/logout?client_id=" ++ MAINJS_CLIENT_ID ++
    "&returnTo=" ++ encodeURIComponent returnTo

/-- Effects of the main.js Auth0 logout-button handler, in program order:
the awaited SDK logout call (which initiates the provider navigation) comes
first, and only then are the localStorage credentials removed. -/
def mainJsAuth0LogoutEffects (origin : String) : List Effect :=
  [Effect.navigate (mainJsAuth0LogoutNavUrl origin),
   Effect.remove "userToken", Effect.remove "userName", Effect.remove "userEmail",
   Effect.remove "isAdmin", Effect.remove "isTestUser"]

/-- Apply a list of handler effects to the store; navigation leaves the
local store unchanged. -/
def interpretActions (acts : List Effect) (s : Storage) : Storage :=
  acts.foldl (fun st a =>
    match a with
    | Effect.remove k => removeItem k st
    | Effect.navigate _ => st) s

/-!
part_003 (tracking.js): the visitor tracking id and the analytics event
buffer, and the spec-modelled pending plan selection.
-/

/-- part_003 getUserTrackingId: return the stored sv_tracking_id, or create
and store a fresh one when the stored value is falsy.  A fresh id is the
literal user_ prefix followed by the timestamp-and-random seed the source
generates. -/
def getUserTrackingId (seed : String) (s : Storage) : String × Storage :=
  match getItem "sv_tracking_id" s with
  | some t =>
    if t == "" then ("user_" ++ seed, setItem "sv_tracking_id" ("user_" ++ seed) s)
    else (t, s)
  | none => ("user_" ++ seed, setItem "sv_tracking_id" ("user_" ++ seed) s)

/-- An analytics event as assembled by part_003 trackEvent. -/
structure EventData where
  event : String
  trackingId : String
  timestamp : String
  page : String
deriving DecidableEq

/-- part_003 storeEvent: push the event onto the sv_analytics list and, when
the list then exceeds 100 entries, shift off the oldest one. -/
def storeEvent (e : EventData) (events : List EventData) : List EventData :=
  let events := events ++ [e]
  if events.length > 100 then events.drop 1 else events

/-- Modelled from the spec: the PendingPlanSelection consumption.  The plan
chosen before login is stored under a plan-selection key and is consumed
(read, then deleted, at most once) when entitlement is evaluated after
login; the storing and consuming script belongs to the plan-selection page,
which is not among the provided sources. -/
def consumePendingPlanSelection (s : Storage) : Option String × Storage :=
  match getItem "pending_plan_selection" s with
  | some plan => (some plan, removeItem "pending_plan_selection" s)
  | none => (none, s)

-- Lemmas about the storage operations and the clearAuthData sweep.

theorem getItem_removeItem_self (k : String) (s : Storage) :
    getItem k (removeItem k s) = none := by
  induction s with
  | nil => rfl
  | cons p rest ih =>
    cases hb : (p.1 == k) with
    | true => simpa [removeItem, hb] using ih
    | false => simp [removeItem, getItem, hb, ih]

theorem getItem_removeItem_other (k k' : String) (h : k ≠ k') (s : Storage) :
    getItem k (removeItem k' s) = getItem k s := by
  induction s with
  | nil => rfl
  | cons p rest ih =>
    cases hb : (p.1 == k') with
    | true =>
      have hp : p.1 = k' := by rwa [beq_iff_eq] at hb
      have hk : (p.1 == k) = false := by
        rw [beq_eq_false_iff_ne, hp]
        exact fun e => h e.symm
      simp [removeItem, getItem, hb, hk, ih]
    | false =>
      cases hc : (p.1 == k) with
      | true => simp [removeItem, getItem, hb, hc]
      | false => simp [removeItem, getItem, hb, hc, ih]

theorem getItem_setItem_self (k v : String) (s : Storage) :
    getItem k (setItem k v s) = some v := by
  induction s with
  | nil => simp [setItem, getItem]
  | cons p rest ih =>
    cases hb : (p.1 == k) with
    | true => simp [setItem, getItem, hb]
    | false => simp [setItem, getItem, hb, ih]

theorem removeItem_sublist (k : String) (s : Storage) : (removeItem k s).Sublist s := by
  induction s with
  | nil => exact List.Sublist.refl []
  | cons p rest ih =>
    cases hb : (p.1 == k) with
    | true =>
      simp only [removeItem, hb, if_true]
      exact ih.cons p
    | false =>
      simp only [removeItem, hb, Bool.false_eq_true, if_false]
      exact ih.cons₂ p

theorem getItem_eq_none_of_sublist (k : String) {s t : Storage} (hsub : s.Sublist t)
    (hnone : getItem k t = none) : getItem k s = none := by
  induction hsub with
  | slnil => rfl
  | cons a h ih =>
    cases hb : (a.1 == k) with
    | true => simp [getItem, hb] at hnone
    | false =>
      simp only [getItem, hb, Bool.false_eq_true, if_false] at hnone
      exact ih hnone
  | cons₂ a h ih =>
    cases hb : (a.1 == k) with
    | true => simp [getItem, hb] at hnone
    | false =>
      simp only [getItem, hb, Bool.false_eq_true, if_false] at hnone ⊢
      exact ih hnone

theorem clearLoop_sublist (fuel : Nat) : ∀ (i : Nat) (s : Storage),
    (clearLoop fuel i s).Sublist s := by
  induction fuel with
  | zero => intro i s; exact List.Sublist.refl s
  | succ n ih =>
    intro i s
    unfold clearLoop
    cases hk : keyAt i s with
    | none => exact List.Sublist.refl s
    | some k =>
      cases hm : auth0KeyMatch k with
      | true =>
        simp only [hm, if_true]
        exact (ih (i + 1) (removeItem k s)).trans (removeItem_sublist k s)
      | false =>
        simp only [hm, Bool.false_eq_true, if_false]
        exact ih (i + 1) s

theorem getItem_clearLoop_preserve (k' : String) (h : auth0KeyMatch k' = false)
    (fuel : Nat) : ∀ (i : Nat) (s : Storage),
    getItem k' (clearLoop fuel i s) = getItem k' s := by
  induction fuel with
  | zero => intro i s; rfl
  | succ n ih =>
    intro i s
    unfold clearLoop
    cases hk : keyAt i s with
    | none => rfl
    | some k =>
      cases hm : auth0KeyMatch k with
      | true =>
        have hne : k' ≠ k := fun e => by rw [e, hm] at h; exact Bool.true_eq_false.mp h
        simp only [hm, if_true]
        rw [ih (i + 1) (removeItem k s), getItem_removeItem_other k' k hne s]
      | false =>
        simp only [hm, Bool.false_eq_true, if_false]
        exact ih (i + 1) s

theorem getItem_clearAuthData_preserve (k : String) (b : Bool)
    (h1 : k ≠ "auth_id_token") (h2 : k ≠ "auth_access_token")
    (h3 : k ≠ "auth_user_id") (h4 : k ≠ "auth_user_name")
    (h5 : k ≠ "auth_user_email") (h6 : k ≠ "auth_login_time")
    (h7 : k ≠ "auth0.is.authenticated") (h8 : k ≠ "subscription_active")
    (h9 : k ≠ "subscription_date") (h10 : k ≠ "subscription_plan")
    (hm : auth0KeyMatch k = false) (s : Storage) :
    getItem k (clearAuthData b s) = getItem k s := by
  unfold clearAuthData
  cases b with
  | true =>
    simp only [if_true]
    rw [getItem_removeItem_other k _ h10, getItem_removeItem_other k _ h9,
      getItem_removeItem_other k _ h8, getItem_clearLoop_preserve k hm,
      getItem_removeItem_other k _ h7, getItem_removeItem_other k _ h6,
      getItem_removeItem_other k _ h5, getItem_removeItem_other k _ h4,
      getItem_removeItem_other k _ h3, getItem_removeItem_other k _ h2,
      getItem_removeItem_other k _ h1]
  | false =>
    simp only [Bool.false_eq_true, if_false]
    rw [getItem_clearLoop_preserve k hm, getItem_removeItem_other k _ h7,
      getItem_removeItem_other k _ h6, getItem_removeItem_other k _ h2,
      getItem_removeItem_other k _ h1]

theorem getItem_clearAuthData_false_preserve (k : String)
    (h1 : k ≠ "auth_id_token") (h2 : k ≠ "auth_access_token")
    (h6 : k ≠ "auth_login_time") (h7 : k ≠ "auth0.is.authenticated")
    (hm : auth0KeyMatch k = false) (s : Storage) :
    getItem k (clearAuthData false s) = getItem k s := by
  unfold clearAuthData
  simp only [Bool.false_eq_true, if_false]
  rw [getItem_clearLoop_preserve k hm, getItem_removeItem_other k _ h7,
    getItem_removeItem_other k _ h6, getItem_removeItem_other k _ h2,
    getItem_removeItem_other k _ h1]

theorem clearAuthData_false_removes_tokens (s : Storage) :
    getItem "auth_id_token" (clearAuthData false s) = none ∧
    getItem "auth_access_token" (clearAuthData false s) = none ∧
    getItem "auth_login_time" (clearAuthData false s) = none ∧
    getItem "auth0.is.authenticated" (clearAuthData false s) = none := by
  unfold clearAuthData
  simp only [Bool.false_eq_true, if_false]
  refine ⟨?_, ?_, ?_, ?_⟩
  · exact getItem_eq_none_of_sublist _ (clearLoop_sublist _ _ _)
      (by rw [getItem_removeItem_other _ _ (by decide), getItem_removeItem_other _ _ (by decide),
        getItem_removeItem_other _ _ (by decide)]; exact getItem_removeItem_self _ s)
  · exact getItem_eq_none_of_sublist _ (clearLoop_sublist _ _ _)
      (by rw [getItem_removeItem_other _ _ (by decide), getItem_removeItem_other _ _ (by decide)]
          exact getItem_removeItem_self _ _)
  · exact getItem_eq_none_of_sublist _ (clearLoop_sublist _ _ _)
      (by rw [getItem_removeItem_other _ _ (by decide)]; exact getItem_removeItem_self _ _)
  · exact getItem_eq_none_of_sublist _ (clearLoop_sublist _ _ _)
      (getItem_removeItem_self _ _)

-- Lemmas about the bounded SDK wait and the unbounded retry.

theorem waitGo_le (avail : Nat → Bool) : ∀ (fuel a : Nat), waitGo avail a fuel ≤ a + fuel := by
  intro fuel
  induction fuel with
  | zero => intro a; exact Nat.le_refl a
  | succ n ih =>
    intro a
    unfold waitGo
    cases h : avail a with
    | true => simp only [if_true]; omega
    | false =>
      simp only [Bool.false_eq_true, if_false]
      exact Nat.le_trans (ih (a + 1)) (by omega)

theorem waitGo_never (avail : Nat → Bool) (h : ∀ t, avail t = false) :
    ∀ (fuel a : Nat), waitGo avail a fuel = a + fuel := by
  intro fuel
  induction fuel with
  | zero => intro a; rfl
  | succ n ih =>
    intro a
    unfold waitGo
    rw [h a]
    simp only [Bool.false_eq_true, if_false]
    rw [ih (a + 1)]
    omega

theorem initAuth0Retry_never (avail : Nat → Bool) (h : ∀ t, avail t = false) :
    ∀ (fuel a : Nat), initAuth0Retry avail a fuel = RetryOutcome.stillRetrying := by
  intro fuel
  induction fuel with
  | zero => intro a; rfl
  | succ n ih =>
    intro a
    unfold initAuth0Retry
    rw [h a]
    simp only [Bool.false_eq_true, if_false]
    exact ih (a + 1)

-- A freshly generated tracking id is never the empty string.

theorem userPrefix_ne_empty (x : String) : (("user_" ++ x) == "") = false := by
  rw [beq_eq_false_iff_ne]
  intro h
  have hd := congrArg String.data h
  rw [data_append] at hd
  exact List.noConfusion hd

theorem strAppend_assoc (a b c : String) : (a ++ b) ++ c = a ++ (b ++ c) := by
  cases a with
  | mk la =>
    cases b with
    | mk lb =>
      cases c with
      | mk lc =>
        show String.mk ((la ++ lb) ++ lc) = String.mk (la ++ (lb ++ lc))
        rw [List.append_assoc]

theorem storeEvent_fold (l : List EventData) :
    List.foldl (fun acc e => storeEvent e acc) [] l = l.drop (l.length - 100) := by
  induction l using List.reverseRecOn with
  | nil => rfl
  | append_singleton l e ih =>
    rw [List.foldl_append, List.foldl_cons, List.foldl_nil, ih]
    by_cases hk : l.length < 100
    · have h0 : l.length - 100 = 0 := by omega
      have h1 : (l ++ [e]).length - 100 = 0 := by
        rw [List.length_append, List.length_singleton]; omega
      rw [h0, List.drop_zero, h1, List.drop_zero]
      have hcond : ¬ ((l ++ [e]).length > 100) := by
        rw [List.length_append, List.length_singleton]; omega
      simp only [storeEvent, if_neg hcond]
    · have hlen : (l.drop (l.length - 100)).length = 100 := by
        rw [List.length_drop]; omega
      have hcond : (l.drop (l.length - 100) ++ [e]).length > 100 := by
        rw [List.length_append, hlen, List.length_singleton]; omega
      simp only [storeEvent, if_pos hcond]
      have hsplit : l.drop (l.length - 100) ++ [e] = (l ++ [e]).drop (l.length - 100) := by
        rw [List.drop_append_eq_append_drop]
        have hz : l.length - 100 - l.length = 0 := by omega
        rw [hz, List.drop_zero]
      rw [hsplit, List.drop_drop]
      have harith : (l ++ [e]).length - 100 = l.length - 100 + 1 := by
        rw [List.length_append, List.length_singleton]; omega
      rw [harith]

/-!
Claim theorems.
-/

/-- C10: the persisted analytics event list never exceeds 100 entries: every
storeEvent call appends the new event and, when the list would exceed 100,
shifts off exactly the oldest entry first, so the length bound is preserved
by every trackEvent call, and the retained events are always the most recent
ones in arrival order (folding storeEvent over any arrival sequence keeps
exactly its last hundred events). -/
theorem c10_eventBufferBounded (e : EventData) (evs : List EventData)
    (l : List EventData) (h : evs.length ≤ 100) :
    (storeEvent e evs).length ≤ 100 ∧
    List.foldl (fun acc x => storeEvent x acc) [] l = l.drop (l.length - 100) := by
  constructor
  · by_cases hc : (evs ++ [e]).length > 100
    · simp only [storeEvent, if_pos hc]
      rw [List.length_drop, List.length_append, List.length_singleton]
      omega
    · simp only [storeEvent, if_neg hc]
      rw [List.length_append, List.length_singleton] at hc ⊢
      omega
  · exact storeEvent_fold l

/-- Witness for C10 at a concrete event and arrival list. -/
theorem c10_witness :
    ([] : List EventData).length ≤ 100 ∧
    ((storeEvent (EventData.mk "page_view" "user_1" "ts" "/") []).length ≤ 100 ∧
      List.foldl (fun acc x => storeEvent x acc) []
          [EventData.mk "page_view" "user_1" "ts" "/"] =
        [EventData.mk "page_view" "user_1" "ts" "/"].drop
          ([EventData.mk "page_view" "user_1" "ts" "/"].length - 100)) :=
  ⟨by decide,
   c10_eventBufferBounded (EventData.mk "page_view" "user_1" "ts" "/") []
     [EventData.mk "page_view" "user_1" "ts" "/"] (by decide)⟩

/-- C9: the visitor tracking id is created at most once and is invariant
afterwards: a second getUserTrackingId call returns the id of the first and
leaves the store untouched, and neither clearAuthData (either mode) nor the
main.js Auth0 logout removals touch the stored sv_tracking_id value. -/
theorem c9_trackingIdStable (seed1 seed2 : String) (s : Storage) (b : Bool) :
    (getUserTrackingId seed2 (getUserTrackingId seed1 s).2).1 =
      (getUserTrackingId seed1 s).1 ∧
    (getUserTrackingId seed2 (getUserTrackingId seed1 s).2).2 =
      (getUserTrackingId seed1 s).2 ∧
    getItem "sv_tracking_id" (clearAuthData b s) = getItem "sv_tracking_id" s ∧
    getItem "sv_tracking_id" (interpretActions (mainJsAuth0LogoutEffects MAIN_URL) s) =
      getItem "sv_tracking_id" s := by
  refine ⟨?_, ?_, ?_, ?_⟩
  · cases hg : getItem "sv_tracking_id" s with
    | none =>
      simp [getUserTrackingId, hg, getItem_setItem_self, userPrefix_ne_empty]
    | some t =>
      cases ht : (t == "") with
      | true =>
        simp [getUserTrackingId, hg, ht, getItem_setItem_self, userPrefix_ne_empty]
      | false =>
        simp [getUserTrackingId, hg, ht]
  · cases hg : getItem "sv_tracking_id" s with
    | none =>
      simp [getUserTrackingId, hg, getItem_setItem_self, userPrefix_ne_empty]
    | some t =>
      cases ht : (t == "") with
      | true =>
        simp [getUserTrackingId, hg, ht, getItem_setItem_self, userPrefix_ne_empty]
      | false =>
        simp [getUserTrackingId, hg, ht]
  · exact getItem_clearAuthData_preserve _ b (by decide) (by decide) (by decide)
      (by decide) (by decide) (by decide) (by decide) (by decide) (by decide)
      (by decide) (by decide) s
  · simp only [interpretActions, mainJsAuth0LogoutEffects, List.foldl_cons, List.foldl_nil]
    rw [getItem_removeItem_other _ _ (by decide), getItem_removeItem_other _ _ (by decide),
      getItem_removeItem_other _ _ (by decide), getItem_removeItem_other _ _ (by decide),
      getItem_removeItem_other _ _ (by decide)]

/-- C5 amended: the part_000 SDK wait polls at a fixed interval for at most
50 attempts and, when the SDK never becomes available, fails with the
timeout error; the part_002 initAuth0 variant instead reschedules itself
indefinitely with no cap and never produces an error outcome. -/
theorem c5_sdkWaitBounded (avail : Nat → Bool) :
    waitGo avail 0 50 ≤ 50 ∧
    ((∀ t, avail t = false) →
      waitForAuth0SDK avail = Except.error sdkTimeoutMsg ∧
      ∀ fuel a, initAuth0Retry avail a fuel = RetryOutcome.stillRetrying) := by
  constructor
  · have := waitGo_le avail 50 0
    omega
  · intro h
    constructor
    · simp only [waitForAuth0SDK, h, Bool.false_eq_true, if_false]
    · exact fun fuel a => initAuth0Retry_never avail h fuel a

/-- Witness for C5 at the never-available schedule. -/
theorem c5_witness :
    waitGo (fun _ => false) 0 50 ≤ 50 ∧
    waitForAuth0SDK (fun _ => false) = Except.error sdkTimeoutMsg ∧
    initAuth0Retry (fun _ => false) 0 51 = RetryOutcome.stillRetrying :=
  ⟨(c5_sdkWaitBounded (fun _ => false)).1,
   ((c5_sdkWaitBounded (fun _ => false)).2 (fun _ => rfl)).1,
   ((c5_sdkWaitBounded (fun _ => false)).2 (fun _ => rfl)).2 51 0⟩

set_option maxRecDepth 4000 in
/-- C5 counterexample: the part_002 SDK-availability retry is still
rescheduling itself, with no error raised, after 51 and even after 500
scheduled invocations with the SDK never available, so no fixed attempt
cap makes it fail instead of retrying. -/
theorem c5_counterexample :
    initAuth0Retry (fun _ => false) 0 51 = RetryOutcome.stillRetrying ∧
    initAuth0Retry (fun _ => false) 0 500 = RetryOutcome.stillRetrying := by
  constructor
  · decide
  · decide

/-- C6 amended: the persisted display name and the names shown by the
initAuth0 branch and by part_002 showDashboard equal the profile name when
present and otherwise the email local part; the main.js updateUI variant,
however, displays the whole email address when the name is absent. -/
theorem c6_displayNameDerivation (u : Profile) :
    (∀ n, u.name = some n → (n == "") = false →
      storedUserName u = n ∧ updateUIDisplayedName u = n ∧
      showDashboardDisplayedName u = n) ∧
    (u.name = none →
      storedUserName u = emailLocalPart u.email ∧
      showDashboardDisplayedName u = emailLocalPart u.email ∧
      updateUIDisplayedName u = u.email) := by
  constructor
  · intro n hn hne
    simp [storedUserName, updateUIDisplayedName, showDashboardDisplayedName, jsOr, hn, hne]
  · intro hn
    simp [storedUserName, updateUIDisplayedName, showDashboardDisplayedName, jsOr, hn]

/-- Witness for C6 at a profile with no name. -/
theorem c6_witness :
    (Profile.mk none "bob@example.com").name = none ∧
    storedUserName (Profile.mk none "bob@example.com") =
      emailLocalPart "bob@example.com" ∧
    updateUIDisplayedName (Profile.mk none "bob@example.com") = "bob@example.com" :=
  ⟨rfl, ((c6_displayNameDerivation (Profile.mk none "bob@example.com")).2 rfl).1,
   ((c6_displayNameDerivation (Profile.mk none "bob@example.com")).2 rfl).2.2⟩

/-- C6 counterexample: for a profile with no name and email
alice at example.com, updateUI shows the whole email in the logged-in UI,
not the local part alice the claim requires. -/
theorem c6_counterexample :
    updateUIDisplayedName (Profile.mk none "alice@example.com") = "alice@example.com" ∧
    emailLocalPart "alice@example.com" = "alice" ∧
    ("alice@example.com" : String) ≠ "alice" := by
  refine ⟨rfl, ?_, by decide⟩
  decide

/-- C7: with the email outside the test-account allowlist and no active
subscription flag, the part_000 authenticated handler routes to the
plan-selection page carrying the subject id, and that destination does not
target the downstream application origin. -/
theorem c7_noEntitlementRoutesToPlans (userId email idToken : String) (s : Storage)
    (h1 : testAccounts.contains email = false)
    (h2 : (getItem "subscription_active" s == some "true") = false) :
    lockAuthenticatedRedirect userId email idToken s =
      MAIN_URL ++ "/plans.html?user_id=" ++ encodeURIComponent userId ∧
    strContains (lockAuthenticatedRedirect userId email idToken s)
      ("user_id=" ++ encodeURIComponent userId) = true ∧
    List.isPrefixOf APP_URL.data
      (lockAuthenticatedRedirect userId email idToken s).data = false := by
  have hsub : isSubscribed email s = false := by
    unfold isSubscribed
    rw [h1, h2]
    rfl
  have hred : lockAuthenticatedRedirect userId email idToken s =
      MAIN_URL ++ "/plans.html?user_id=" ++ encodeURIComponent userId := by
    simp [lockAuthenticatedRedirect, hsub]
  refine ⟨hred, ?_, ?_⟩
  · rw [hred]
    apply strContains_suffix (MAIN_URL ++ "/plans.html?")
    rw [show ("/plans.html?user_id=" : String) = "/plans.html?" ++ "user_id=" from rfl]
    simp only [strAppend_assoc]
  · rw [hred]
    rfl

/-- Witness for C7 at a concrete non-allowlisted, unsubscribed session. -/
theorem c7_witness :
    testAccounts.contains "user@example.com" = false ∧
    (getItem "subscription_active" ([] : Storage) == some "true") = false ∧
    lockAuthenticatedRedirect "abc123" "user@example.com" "tok1" [] =
      MAIN_URL ++ "/plans.html?user_id=" ++ encodeURIComponent "abc123" ∧
    List.isPrefixOf APP_URL.data
      (lockAuthenticatedRedirect "abc123" "user@example.com" "tok1" []).data = false :=
  ⟨by decide, by decide,
   (c7_noEntitlementRoutesToPlans "abc123" "user@example.com" "tok1" []
     (by decide) (by decide)).1,
   (c7_noEntitlementRoutesToPlans "abc123" "user@example.com" "tok1" []
     (by decide) (by decide)).2.2⟩

/-- C8: a stored pending plan selection of weekly is read and deleted
exactly once when consumed after login, a second evaluation finds none and
leaves the store unchanged, and the payment redirect for the weekly plan is
the weekly payment link of the configuration.  The consumption step is
modelled from the spec (the plan-selection page scripts are not among the
sources); the payment-URL construction is part_000 redirectToPayment. -/
theorem c8_pendingPlanConsumedOnce (s : Storage) (email userId : String)
    (h : getItem "pending_plan_selection" s = some "weekly") :
    (consumePendingPlanSelection s).1 = some "weekly" ∧
    getItem "pending_plan_selection" (consumePendingPlanSelection s).2 = none ∧
    (consumePendingPlanSelection (consumePendingPlanSelection s).2).1 = none ∧
    (consumePendingPlanSelection (consumePendingPlanSelection s).2).2 =
      (consumePendingPlanSelection s).2 ∧
    List.isPrefixOf ("https://buy.stripe.com/6oU9AUd702qh0nddYT3gk02" : String).data
      (redirectToPaymentUrl email userId "weekly").data = true := by
  have hrem : getItem "pending_plan_selection"
      (removeItem "pending_plan_selection" s) = none :=
    getItem_removeItem_self "pending_plan_selection" s
  refine ⟨?_, ?_, ?_, ?_, ?_⟩
  · simp [consumePendingPlanSelection, h]
  · simp [consumePendingPlanSelection, h, hrem]
  · simp [consumePendingPlanSelection, h, hrem]
  · simp [consumePendingPlanSelection, h, hrem]
  · have hq : strContains "https://buy.stripe.com/6oU9AUd702qh0nddYT3gk02" "?" = false := by
      decide
    have hurl : redirectToPaymentUrl email userId "weekly" =
        "https://buy.stripe.com/6oU9AUd702qh0nddYT3gk02" ++
          ("?client_reference_id=" ++ (userId ++ ("&success_url=" ++
            (encodeURIComponent (APP_URL ++ "?payment_status=success&user_id=" ++
              userId ++ "&plan=" ++ "weekly") ++
              ("&cancel_url=" ++ encodeURIComponent MAIN_URL))))) := by
      simp only [redirectToPaymentUrl]
      rw [show (paymentLinks "weekly").getD "undefined" =
        "https://buy.stripe.com/6oU9AUd702qh0nddYT3gk02" from rfl]
      rw [hq]
      simp only [Bool.false_eq_true, if_false, strAppend_assoc]
    rw [hurl, data_append]
    exact isPrefixOf_append_self _ _

/-- Witness for C8 at a store holding the weekly pending selection. -/
theorem c8_witness :
    getItem "pending_plan_selection" [("pending_plan_selection", "weekly")] =
      some "weekly" ∧
    (consumePendingPlanSelection [("pending_plan_selection", "weekly")]).1 =
      some "weekly" ∧
    (consumePendingPlanSelection
      (consumePendingPlanSelection [("pending_plan_selection", "weekly")]).2).1 = none ∧
    List.isPrefixOf ("https://buy.stripe.com/6oU9AUd702qh0nddYT3gk02" : String).data
      (redirectToPaymentUrl "a@b.c" "abc123" "weekly").data = true :=
  ⟨by decide,
   (c8_pendingPlanConsumedOnce [("pending_plan_selection", "weekly")] "a@b.c" "abc123"
     (by decide)).1,
   (c8_pendingPlanConsumedOnce [("pending_plan_selection", "weekly")] "a@b.c" "abc123"
     (by decide)).2.2.1,
   (c8_pendingPlanConsumedOnce [("pending_plan_selection", "weekly")] "a@b.c" "abc123"
     (by decide)).2.2.2.2⟩

/-- C3 amended: every detector is silent on a URL with no code, error or
token marker; the initializeAuth0 detector fires when code and state are
both present, and the parseHash detector fires on a nonempty fragment
carrying the access_token marker; the initAuth0 detector fires on a code
marker even without state and on a bare error marker, so its trigger set is
strictly larger than the set of provider success markers. -/
theorem c3_callbackDetection (search hash : String) :
    ((strContains search "code=" = false ∧ strContains search "error=" = false ∧
        strContains hash "access_token" = false) →
      initAuth0IsCallback search hash = false ∧
      initializeAuth0IsCallback search = false ∧
      parseHashIsCallback hash = false) ∧
    (strContains search "code=" = true → strContains search "state=" = true →
      initializeAuth0IsCallback search = true ∧
      initAuth0IsCallback search hash = true) ∧
    (strContains search "error=" = true → initAuth0IsCallback search hash = true) ∧
    (strContains search "code=" = true → initAuth0IsCallback search hash = true) ∧
    ((hash == "") = false → strContains hash "access_token" = true →
      parseHashIsCallback hash = true) := by
  refine ⟨?_, ?_, ?_, ?_, ?_⟩
  · rintro ⟨hc, he, ht⟩
    have hat : strContains hash "access_token=" = false := by
      cases hx : strContains hash "access_token=" with
      | false => rfl
      | true =>
        have := strContains_mono hash "access_token" "access_token=" (by decide) hx
        rw [ht] at this
        exact (Bool.false_ne_true this).elim
    refine ⟨?_, ?_, ?_⟩
    · simp [initAuth0IsCallback, hc, he, hat]
    · simp [initializeAuth0IsCallback, hc]
    · simp [parseHashIsCallback, ht]
  · intro hc hs
    exact ⟨by simp [initializeAuth0IsCallback, hc, hs], by simp [initAuth0IsCallback, hc]⟩
  · intro he
    simp [initAuth0IsCallback, he]
  · intro hc
    simp [initAuth0IsCallback, hc]
  · intro hne ht
    simp [parseHashIsCallback, hne, ht]

/-- Witness for C3 at a code-and-state callback URL with a token fragment. -/
theorem c3_witness :
    strContains "?code=a&state=b" "code=" = true ∧
    strContains "?code=a&state=b" "state=" = true ∧
    initializeAuth0IsCallback "?code=a&state=b" = true ∧
    initAuth0IsCallback "?code=a&state=b" "#access_token=xyz" = true ∧
    (("#access_token=xyz" : String) == "") = false ∧
    strContains "#access_token=xyz" "access_token" = true ∧
    parseHashIsCallback "#access_token=xyz" = true :=
  ⟨by decide, by decide,
   ((c3_callbackDetection "?code=a&state=b" "#access_token=xyz").2.1
     (by decide) (by decide)).1,
   (c3_callbackDetection "?code=a&state=b" "#access_token=xyz").2.2.2.1 (by decide),
   by decide, by decide,
   (c3_callbackDetection "?code=a&state=b" "#access_token=xyz").2.2.2.2
     (by decide) (by decide)⟩

/-- C3 counterexample: the initAuth0 detector reports a callback for a URL
whose query carries only an error marker and whose fragment is empty, though
that URL carries neither an authorization code with state nor a bearer
token, so the detection is not exactly the set of provider success markers. -/
theorem c3_counterexample :
    initAuth0IsCallback "?error=access_denied" "" = true ∧
    strContains "?error=access_denied" "code=" = false ∧
    strContains "?error=access_denied" "state=" = false ∧
    strContains "" "access_token=" = false := by
  refine ⟨by decide, by decide, by decide, by decide⟩

/-- C2 amended: the Auth0 dashboard-button hand-off of main.js and the
post-callback hand-off of part_002 target the downstream origin and carry
the user=new marker, the userid, the token and a cache-busting t timestamp
parameter; the subscription-gated hand-off of the part_000 authenticated
handler also targets the downstream origin but carries only user_id and
token, without the user=new marker or a timestamp. -/
theorem c2_handoffUrlMarkers (userId token idToken email : String) (now : Nat)
    (s : Storage) (hsub : isSubscribed email s = true) :
    List.isPrefixOf APP_URL.data (dashboardHandoffUrl userId token now).data = true ∧
    strContains (dashboardHandoffUrl userId token now) "user=new" = true ∧
    strContains (dashboardHandoffUrl userId token now) ("userid=" ++ userId) = true ∧
    strContains (dashboardHandoffUrl userId token now) ("token=" ++ token) = true ∧
    strContains (dashboardHandoffUrl userId token now) ("&t=" ++ toString now) = true ∧
    List.isPrefixOf APP_URL.data (postCallbackHandoffUrl userId token now).data = true ∧
    strContains (postCallbackHandoffUrl userId token now) "user=new" = true ∧
    strContains (postCallbackHandoffUrl userId token now) ("userid=" ++ userId) = true ∧
    strContains (postCallbackHandoffUrl userId token now) ("token=" ++ token) = true ∧
    strContains (postCallbackHandoffUrl userId token now) ("&t=" ++ toString now) = true ∧
    lockAuthenticatedRedirect userId email idToken s =
      APP_URL ++ "?user_id=" ++ encodeURIComponent userId ++ "&token=" ++
        encodeURIComponent idToken ∧
    List.isPrefixOf APP_URL.data
      (lockAuthenticatedRedirect userId email idToken s).data = true ∧
    strContains (lockAuthenticatedRedirect userId email idToken s)
      ("user_id=" ++ encodeURIComponent userId) = true ∧
    strContains (lockAuthenticatedRedirect userId email idToken s)
      ("token=" ++ encodeURIComponent idToken) = true := by
  have hlock : lockAuthenticatedRedirect userId email idToken s =
      APP_URL ++ "?user_id=" ++ encodeURIComponent userId ++ "&token=" ++
        encodeURIComponent idToken := by
    simp [lockAuthenticatedRedirect, hsub]
  refine ⟨?_, ?_, ?_, ?_, ?_, ?_, ?_, ?_, ?_, ?_, hlock, ?_, ?_, ?_⟩
  · have hd : dashboardHandoffUrl userId token now =
        APP_URL ++ ("?user=new&userid=" ++ (userId ++ ("&token=" ++ (token ++
          ("&auth0=true&t=" ++ toString now))))) := by
      simp only [dashboardHandoffUrl, strAppend_assoc]
    rw [hd, data_append]
    exact isPrefixOf_append_self _ _
  · apply strContains_mid (APP_URL ++ "?") "user=new"
      ("&userid=" ++ (userId ++ ("&token=" ++ (token ++ ("&auth0=true&t=" ++ toString now)))))
    simp only [dashboardHandoffUrl, strAppend_assoc]
    rw [show ("?user=new&userid=" : String) = "?" ++ ("user=new" ++ "&userid=") from rfl]
    simp only [strAppend_assoc]
  · apply strContains_mid (APP_URL ++ "?user=new&") ("userid=" ++ userId)
      ("&token=" ++ (token ++ ("&auth0=true&t=" ++ toString now)))
    simp only [dashboardHandoffUrl, strAppend_assoc]
    rw [show ("?user=new&userid=" : String) = "?user=new&" ++ "userid=" from rfl]
    simp only [strAppend_assoc]
  · apply strContains_mid (APP_URL ++ ("?user=new&userid=" ++ (userId ++ "&")))
      ("token=" ++ token) ("&auth0=true&t=" ++ toString now)
    simp only [dashboardHandoffUrl, strAppend_assoc]
    rw [show ("&token=" : String) = "&" ++ "token=" from rfl]
    simp only [strAppend_assoc]
  · apply strContains_suffix
      (APP_URL ++ ("?user=new&userid=" ++ (userId ++ ("&token=" ++ (token ++ "&auth0=true")))))
    simp only [dashboardHandoffUrl, strAppend_assoc]
    rw [show ("&auth0=true&t=" : String) = "&auth0=true" ++ "&t=" from rfl]
    simp only [strAppend_assoc]
  · have hp : postCallbackHandoffUrl userId token now =
        APP_URL ++ ("?user=new&userid=" ++ (userId ++ ("&token=" ++ (token ++
          ("&t=" ++ toString now))))) := by
      simp only [postCallbackHandoffUrl, strAppend_assoc]
    rw [hp, data_append]
    exact isPrefixOf_append_self _ _
  · apply strContains_mid (APP_URL ++ "?") "user=new"
      ("&userid=" ++ (userId ++ ("&token=" ++ (token ++ ("&t=" ++ toString now)))))
    simp only [postCallbackHandoffUrl, strAppend_assoc]
    rw [show ("?user=new&userid=" : String) = "?" ++ ("user=new" ++ "&userid=") from rfl]
    simp only [strAppend_assoc]
  · apply strContains_mid (APP_URL ++ "?user=new&") ("userid=" ++ userId)
      ("&token=" ++ (token ++ ("&t=" ++ toString now)))
    simp only [postCallbackHandoffUrl, strAppend_assoc]
    rw [show ("?user=new&userid=" : String) = "?user=new&" ++ "userid=" from rfl]
    simp only [strAppend_assoc]
  · apply strContains_mid (APP_URL ++ ("?user=new&userid=" ++ (userId ++ "&")))
      ("token=" ++ token) ("&t=" ++ toString now)
    simp only [postCallbackHandoffUrl, strAppend_assoc]
    rw [show ("&token=" : String) = "&" ++ "token=" from rfl]
    simp only [strAppend_assoc]
  · apply strContains_suffix
      (APP_URL ++ ("?user=new&userid=" ++ (userId ++ ("&token=" ++ token))))
    simp only [postCallbackHandoffUrl, strAppend_assoc]
  · rw [hlock]
    rw [show APP_URL ++ "?user_id=" ++ encodeURIComponent userId ++ "&token=" ++
      encodeURIComponent idToken = APP_URL ++ ("?user_id=" ++ (encodeURIComponent userId ++
        ("&token=" ++ encodeURIComponent idToken))) from by simp only [strAppend_assoc]]
    rw [data_append]
    exact isPrefixOf_append_self _ _
  · rw [hlock]
    apply strContains_mid (APP_URL ++ "?")
      ("user_id=" ++ encodeURIComponent userId)
      ("&token=" ++ encodeURIComponent idToken)
    rw [show ("?user_id=" : String) = "?" ++ "user_id=" from rfl]
    simp only [strAppend_assoc]
  · rw [hlock]
    apply strContains_suffix
      (APP_URL ++ ("?user_id=" ++ (encodeURIComponent userId ++ "&")))
    rw [show ("&token=" : String) = "&" ++ "token=" from rfl]
    simp only [strAppend_assoc]

/-- Witness for C2 at the session of the specification scenario. -/
theorem c2_witness :
    isSubscribed "test2@example.com" [] = true ∧
    strContains (dashboardHandoffUrl "abc123" "tok1" 5) "user=new" = true ∧
    strContains (dashboardHandoffUrl "abc123" "tok1" 5) ("userid=" ++ "abc123") = true ∧
    strContains (dashboardHandoffUrl "abc123" "tok1" 5) ("token=" ++ "tok1") = true ∧
    strContains (dashboardHandoffUrl "abc123" "tok1" 5) ("&t=" ++ toString 5) = true ∧
    lockAuthenticatedRedirect "abc123" "test2@example.com" "tok1" [] =
      APP_URL ++ "?user_id=" ++ encodeURIComponent "abc123" ++ "&token=" ++
        encodeURIComponent "tok1" :=
  ⟨by decide,
   (c2_handoffUrlMarkers "abc123" "tok1" "tok1" "test2@example.com" 5 []
     (by decide)).2.1,
   (c2_handoffUrlMarkers "abc123" "tok1" "tok1" "test2@example.com" 5 []
     (by decide)).2.2.1,
   (c2_handoffUrlMarkers "abc123" "tok1" "tok1" "test2@example.com" 5 []
     (by decide)).2.2.2.1,
   (c2_handoffUrlMarkers "abc123" "tok1" "tok1" "test2@example.com" 5 []
     (by decide)).2.2.2.2.1,
   (c2_handoffUrlMarkers "abc123" "tok1" "tok1" "test2@example.com" 5 []
     (by decide)).2.2.2.2.2.2.2.2.2.2.1⟩

/-- C2 counterexample: for the scenario session with subjectId abc123 and
idToken tok1 under an active entitlement, the hand-off URL built by the
part_000 authenticated handler carries neither the user=new marker nor any
timestamp parameter, contrary to the claim. -/
theorem c2_counterexample :
    isSubscribed "user@example.com" [("subscription_active", "true")] = true ∧
    lockAuthenticatedRedirect "abc123" "user@example.com" "tok1"
      [("subscription_active", "true")] =
      "https://app.sanctusvidere.com?user_id=abc123&token=tok1" ∧
    strContains (lockAuthenticatedRedirect "abc123" "user@example.com" "tok1"
      [("subscription_active", "true")]) "user=new" = false ∧
    strContains (lockAuthenticatedRedirect "abc123" "user@example.com" "tok1"
      [("subscription_active", "true")]) "t=" = false := by
  refine ⟨by decide, by decide, by decide, by decide⟩

/-- C1 amended: the part_000 logout removes the token keys, the login time and
the provider-cache flag from the store before the logout navigation URL is
produced, but deliberately preserves the user name, email and user id keys
(clearAuthData is invoked with clearUserID false); the main.js Auth0 logout
handler issues the provider-logout navigation as its first effect, before
any credential removal, though interpreting all its effects does remove the
userToken key. -/
theorem c1_logoutOrderAndResidue (origin : String) (s : Storage) :
    getItem "auth_id_token" (part000Logout origin s).1 = none ∧
    getItem "auth_access_token" (part000Logout origin s).1 = none ∧
    getItem "auth_login_time" (part000Logout origin s).1 = none ∧
    getItem "auth0.is.authenticated" (part000Logout origin s).1 = none ∧
    getItem "auth_user_name" (part000Logout origin s).1 = getItem "auth_user_name" s ∧
    getItem "auth_user_email" (part000Logout origin s).1 = getItem "auth_user_email" s ∧
    getItem "auth_user_id" (part000Logout origin s).1 = getItem "auth_user_id" s ∧
    (mainJsAuth0LogoutEffects origin).take 1 =
      [Effect.navigate (mainJsAuth0LogoutNavUrl origin)] ∧
    getItem "userToken" (interpretActions (mainJsAuth0LogoutEffects origin) s) = none := by
  have hrm := clearAuthData_false_removes_tokens s
  refine ⟨hrm.1, hrm.2.1, hrm.2.2.1, hrm.2.2.2, ?_, ?_, ?_, rfl, ?_⟩
  · exact getItem_clearAuthData_false_preserve _ (by decide) (by decide) (by decide)
      (by decide) (by decide) s
  · exact getItem_clearAuthData_false_preserve _ (by decide) (by decide) (by decide)
      (by decide) (by decide) s
  · exact getItem_clearAuthData_false_preserve _ (by decide) (by decide) (by decide)
      (by decide) (by decide) s
  · simp only [interpretActions, mainJsAuth0LogoutEffects, List.foldl_cons, List.foldl_nil]
    rw [getItem_removeItem_other _ _ (by decide), getItem_removeItem_other _ _ (by decide),
      getItem_removeItem_other _ _ (by decide), getItem_removeItem_other _ _ (by decide)]
    exact getItem_removeItem_self _ s

/-- Concrete store for the C1 counterexample: a token, a user name and an
email persisted by a part_000 login. -/
def c1Store : Storage :=
  [("auth_id_token", "tok"), ("auth_user_name", "Alice"),
   ("auth_user_email", "alice@example.com")]

/-- C1 counterexample: after the part_000 logout the store still holds the
auth_user_name and auth_user_email session keys, and in the main.js Auth0
logout handler the first effect in program order is the provider navigation,
before any credential removal, so the claim fails on both fronts. -/
theorem c1_counterexample :
    getItem "auth_user_name" (part000Logout MAIN_URL c1Store).1 = some "Alice" ∧
    getItem "auth_user_email" (part000Logout MAIN_URL c1Store).1 =
      some "alice@example.com" ∧
    (mainJsAuth0LogoutEffects MAIN_URL).take 1 =
      [Effect.navigate (mainJsAuth0LogoutNavUrl MAIN_URL)] := by
  refine ⟨by decide, by decide, rfl⟩

/-- Concrete store for the C4 evaluation: two adjacent provider-cache keys
and one upper-case variant. -/
def c4Store : Storage := [("auth0.a", "1"), ("auth0.b", "2"), ("AUTH0.c", "3")]

/-- C4: evaluating part_000 clearAuthData on a store with the adjacent keys
auth0.a and auth0.b and the upper-case key AUTH0.c leaves auth0.b behind
(the sweep index skips the entry shifted into the removed slot) and leaves
AUTH0.c behind (only the two spellings auth0 and Auth0 are matched), though
both keys contain the provider marker case-insensitively, contradicting the
claimed purge. -/
theorem c4_purgeMissesKeys :
    getItem "auth0.b" (clearAuthData true c4Store) = some "2" ∧
    getItem "AUTH0.c" (clearAuthData true c4Store) = some "3" ∧
    containsCaseInsensitive "auth0.b" "auth0" = true ∧
    containsCaseInsensitive "AUTH0.c" "auth0" = true ∧
    auth0KeyMatch "auth0.b" = true ∧
    auth0KeyMatch "AUTH0.c" = false := by
  refine ⟨by decide, by decide, by decide, by decide, by decide, by decide⟩
